import Mathlib

/-!
Verification of the fireworks-safe-zones geometric core against its
natural-language specification.  The Python source is shallowly embedded:
planar geometries are an inductive datatype whose polygons are abstract
identifiers, the fallible operations of the geometry engine (union, difference,
buffering) are passed in as function parameters, and the control flow of
each pipeline function is translated statement by statement.
-/

set_option maxHeartbeats 1000000

namespace SafeZones

/-- Atomic planar geometry as produced by the geometry engine.  Polygons are
identified by an abstract tag; a MultiPolygon carries the tags of its member
polygons.  Points and line strings stand for the non-areal results a planar
union can degenerate to. -/
inductive AtomGeom where
  | point
  | lineString
  | polygon (id : Nat)
  | multiPolygon (ids : List Nat)
deriving DecidableEq, Repr

/-- Result of a union or difference operation: either an atomic geometry or a
mixed geometry collection of atomic members (union and difference results do
not nest collections inside collections). -/
inductive Geom where
  | atom (a : AtomGeom)
  | geometryCollection (members : List AtomGeom)
deriving DecidableEq, Repr

/-- Translation of the membership test
`isinstance(geom, (Polygon, MultiPolygon))` used by both normalizations
(geometry_utils.py line 103, zones_generator.py line 273). -/
def isPolygonal : AtomGeom → Bool
  | .polygon _ => true
  | .multiPolygon _ => true
  | _ => false

/-- Member list of the MultiPolygon built by the normalization in
`create_forbidden_zone_with_custom_buffers` (geometry_utils.py lines 97-110):
a Polygon becomes the only member; a MultiPolygon is kept as-is (its own
members); a GeometryCollection is filtered to its Polygon/MultiPolygon
members, which are passed to the MultiPolygon constructor unflattened (the
source has no unpacking step here); anything else yields the empty
MultiPolygon. -/
def mergerNormalize : Geom → List AtomGeom
  | .atom (.polygon p) => [.polygon p]
  | .atom (.multiPolygon ps) => ps.map .polygon
  | .atom _ => []
  | .geometryCollection gs => gs.filter isPolygonal

/-- Follows the wording of the spec for the merger normalization (spec section 4.2):
same as `mergerNormalize` except that in the mixed-collection case every
nested MultiPolygon member is unpacked into the flat member list.  Written
only to be compared against the source-derived `mergerNormalize`. -/
def mergerNormalizeAsSpecified : Geom → List AtomGeom
  | .atom (.polygon p) => [.polygon p]
  | .atom (.multiPolygon ps) => ps.map .polygon
  | .atom _ => []
  | .geometryCollection gs =>
      (gs.filter isPolygonal).flatMap fun g =>
        match g with
        | .multiPolygon ps => ps.map .polygon
        | g => [g]

/-- Translation of `create_forbidden_zone_with_custom_buffers` at the level of
the already-buffered geometry list (geometry_utils.py lines 88-110): an empty
buffered list short-circuits to an empty MultiPolygon, otherwise the planar
union (abstract parameter) is normalized by `mergerNormalize`.  The result is
the member list of the returned forbidden-zone MultiPolygon. -/
def create_forbidden_zone (union : List AtomGeom → Geom)
    (buffered : List AtomGeom) : List AtomGeom :=
  if buffered = [] then [] else mergerNormalize (union buffered)

/-- Normalization of the dissolved union in `create_zones_from_points`
(zones_generator.py lines 42-58): a Polygon gives one zone, a MultiPolygon
gives its members, and any other result — including a mixed
GeometryCollection — is logged as unexpected and gives zero zones. -/
def pointsDissolveNormalize : Geom → List AtomGeom
  | .atom (.polygon p) => [.polygon p]
  | .atom (.multiPolygon ps) => ps.map .polygon
  | _ => []

/-- Zone-candidate extraction from a free-space difference result
(zones_generator.py lines 264-280): Polygon gives one candidate, MultiPolygon
its members, and a GeometryCollection is filtered to polygonal members with
every nested MultiPolygon unpacked into individual polygons. -/
def freeSpaceZonesList : Geom → List AtomGeom
  | .atom (.polygon p) => [.polygon p]
  | .atom (.multiPolygon ps) => ps.map .polygon
  | .atom _ => []
  | .geometryCollection gs =>
      (gs.filter isPolygonal).flatMap fun g =>
        match g with
        | .multiPolygon ps => ps.map .polygon
        | g => [g]

/-- Size classes returned by `classify_zones_by_size`
(zones_generator.py lines 109-119). -/
inductive SizeClass where
  | very_small
  | small
  | medium
  | large
  | very_large
deriving DecidableEq, Repr

/-- Translation of the inner `classify_size` function of
`classify_zones_by_size` (zones_generator.py lines 109-119); float areas are
modelled as rationals. -/
def classify_size (area_m2 : ℚ) : SizeClass :=
  if area_m2 < 1000 then .very_small
  else if area_m2 < 5000 then .small
  else if area_m2 < 10000 then .medium
  else if area_m2 < 50000 then .large
  else .very_large

theorem classify_very_small_iff (a : ℚ) :
    classify_size a = SizeClass.very_small ↔ a < 1000 := by
  unfold classify_size
  split_ifs with h1 h2 h3 h4 <;> simp_all

theorem classify_small_iff (a : ℚ) :
    classify_size a = SizeClass.small ↔ 1000 ≤ a ∧ a < 5000 := by
  unfold classify_size
  split_ifs with h1 h2 h3 h4 <;>
    simp_all <;> intro h <;> linarith

theorem classify_medium_iff (a : ℚ) :
    classify_size a = SizeClass.medium ↔ 5000 ≤ a ∧ a < 10000 := by
  unfold classify_size
  split_ifs with h1 h2 h3 h4 <;>
    simp_all <;> intro h <;> linarith

theorem classify_large_iff (a : ℚ) :
    classify_size a = SizeClass.large ↔ 10000 ≤ a ∧ a < 50000 := by
  unfold classify_size
  split_ifs with h1 h2 h3 h4 <;>
    simp_all <;> intro h <;> linarith

theorem classify_very_large_iff (a : ℚ) :
    classify_size a = SizeClass.very_large ↔ 50000 ≤ a := by
  unfold classify_size
  split_ifs with h1 h2 h3 h4 <;> simp_all <;> linarith

/-- C4: for every area_m2 ≥ 0 the size classification is total and assigns
exactly one of the five classes along half-open ranges, inclusive on the
lower bound and exclusive on the upper bound; in particular
classify(1000) = small and classify(5000) = medium. -/
theorem c4_classification_ranges (a : ℚ) (h : 0 ≤ a) :
    (classify_size a = SizeClass.very_small ↔ 0 ≤ a ∧ a < 1000)
    ∧ (classify_size a = SizeClass.small ↔ 1000 ≤ a ∧ a < 5000)
    ∧ (classify_size a = SizeClass.medium ↔ 5000 ≤ a ∧ a < 10000)
    ∧ (classify_size a = SizeClass.large ↔ 10000 ≤ a ∧ a < 50000)
    ∧ (classify_size a = SizeClass.very_large ↔ 50000 ≤ a)
    ∧ classify_size 1000 = SizeClass.small
    ∧ classify_size 5000 = SizeClass.medium := by
  refine ⟨?_, classify_small_iff a, classify_medium_iff a,
    classify_large_iff a, classify_very_large_iff a, ?_, ?_⟩
  · rw [classify_very_small_iff]
    exact ⟨fun hx => ⟨h, hx⟩, fun hx => hx.2⟩
  · rw [classify_small_iff]; norm_num
  · rw [classify_medium_iff]; norm_num

/-- C4 witness: the classification theorem applied at the concrete
area 1000. -/
theorem c4_classification_ranges_witness :
    classify_size 1000 = SizeClass.small :=
  (c4_classification_ranges 1000 (by norm_num)).2.2.2.2.2.1

/-- C1 counterexample: on a mixed collection holding a nested MultiPolygon
the merger keeps the MultiPolygon as a single unflattened member, while the
claimed normalization would unpack it into the flat member list; the two
results differ. -/
theorem c1_counterexample :
    mergerNormalize
        (Geom.geometryCollection [AtomGeom.multiPolygon [1, 2], AtomGeom.point])
      = [AtomGeom.multiPolygon [1, 2]]
    ∧ mergerNormalizeAsSpecified
        (Geom.geometryCollection [AtomGeom.multiPolygon [1, 2], AtomGeom.point])
      = [AtomGeom.polygon 1, AtomGeom.polygon 2]
    ∧ mergerNormalize
        (Geom.geometryCollection [AtomGeom.multiPolygon [1, 2], AtomGeom.point])
      ≠ mergerNormalizeAsSpecified
        (Geom.geometryCollection [AtomGeom.multiPolygon [1, 2], AtomGeom.point]) :=
  ⟨rfl, rfl, by decide⟩

/-- C1 (amended): the forbidden-region merger normalizes the union result as
follows — a single Polygon becomes a one-member MultiPolygon; a MultiPolygon
is kept as-is; a mixed geometry collection is filtered to its
Polygon/MultiPolygon members, which are kept in the member list WITHOUT
unpacking nested MultiPolygons; if no polygonal member survives, or there are
no buffered geometries at all, the result is an empty MultiPolygon rather
than an error. -/
theorem c1_merger_normalization (union : List AtomGeom → Geom)
    (buffered : List AtomGeom) :
    (buffered = [] → create_forbidden_zone union buffered = [])
    ∧ (∀ p, buffered ≠ [] → union buffered = Geom.atom (AtomGeom.polygon p) →
        create_forbidden_zone union buffered = [AtomGeom.polygon p])
    ∧ (∀ ps, buffered ≠ [] →
        union buffered = Geom.atom (AtomGeom.multiPolygon ps) →
        create_forbidden_zone union buffered = ps.map AtomGeom.polygon)
    ∧ (∀ gs, buffered ≠ [] → union buffered = Geom.geometryCollection gs →
        create_forbidden_zone union buffered = gs.filter isPolygonal)
    ∧ (∀ gs, buffered ≠ [] → union buffered = Geom.geometryCollection gs →
        gs.filter isPolygonal = [] → create_forbidden_zone union buffered = []) := by
  refine ⟨?_, ?_, ?_, ?_, ?_⟩
  · intro h; simp [create_forbidden_zone, h]
  · intro p hne hu; simp [create_forbidden_zone, hne, hu, mergerNormalize]
  · intro ps hne hu; simp [create_forbidden_zone, hne, hu, mergerNormalize]
  · intro gs hne hu; simp [create_forbidden_zone, hne, hu, mergerNormalize]
  · intro gs hne hu hflt
    simp [create_forbidden_zone, hne, hu, mergerNormalize, hflt]

/-- C1 witness: the amended normalization theorem applied to a concrete
one-element buffered list whose union degenerates to a mixed collection with
one polygon and one line string. -/
theorem c1_merger_normalization_witness :
    create_forbidden_zone
        (fun _ => Geom.geometryCollection [AtomGeom.polygon 5, AtomGeom.lineString])
        [AtomGeom.polygon 0] = [AtomGeom.polygon 5] := by
  have h := (c1_merger_normalization
      (fun _ => Geom.geometryCollection [AtomGeom.polygon 5, AtomGeom.lineString])
      [AtomGeom.polygon 0]).2.2.2.1
      [AtomGeom.polygon 5, AtomGeom.lineString] (by decide) rfl
  simpa using h

/-- C7 counterexample: on a mixed collection holding a single polygon, the
point-dissolve path discards the collection and yields zero zones, while the
merger normalization keeps the polygon; the two normalizations disagree on
this union result. -/
theorem c7_counterexample :
    pointsDissolveNormalize (Geom.geometryCollection [AtomGeom.polygon 1]) = []
    ∧ mergerNormalize (Geom.geometryCollection [AtomGeom.polygon 1])
      = [AtomGeom.polygon 1] :=
  ⟨rfl, rfl⟩

/-- C7 (amended): the dissolve normalization of the point-zone pipeline
agrees with the merger normalization on Polygon and MultiPolygon union
results (and on non-areal atomic results, where both give an empty result),
but it discards a mixed geometry collection entirely instead of filtering it
to its polygonal members: the two agree on a union result exactly when that
result is not a geometry collection with at least one polygonal member. -/
theorem c7_dissolve_vs_merger (u : Geom) :
    pointsDissolveNormalize u = mergerNormalize u
      ↔ ∀ gs, u = Geom.geometryCollection gs → gs.filter isPolygonal = [] := by
  cases u with
  | atom a => cases a <;> simp [pointsDissolveNormalize, mergerNormalize]
  | geometryCollection gs =>
      constructor
      · intro h gs2 heq
        injection heq with h2
        subst h2
        exact h.symm
      · intro h
        exact (h gs rfl).symm

/-- Candidate grid points are planar coordinates; the spatial predicates of
the geometry engine are abstract parameters over them. -/
abbrev Pt := Int × Int

/-- Per-point safe mask of `filter_safe_points` (grid_generator.py lines
90-93 and 102-104): safe means not within the forbidden zone and not
intersecting it. -/
def safePred (within intersects : Pt → Bool) (p : Pt) : Bool :=
  !within p && !intersects p

/-- Chunked filtering loop of `filter_safe_points` (grid_generator.py lines
82-99): fixed 50000-point chunks, processed in order, each filtered by the
safe mask, results concatenated. -/
def filterChunks (f : Pt → Bool) (pts : List Pt) : List Pt :=
  if pts = [] then []
  else (pts.take 50000).filter f ++ filterChunks f (pts.drop 50000)
termination_by pts.length
decreasing_by
  rename_i h
  have hlen : pts.length ≠ 0 := fun hz => h (List.length_eq_zero.mp hz)
  simp only [List.length_drop]
  omega

/-- Translation of `filter_safe_points` (grid_generator.py lines 56-109):
empty input is returned unchanged; more than 100000 points go through the
chunked loop; otherwise one global mask evaluation filters the list. -/
def filter_safe_points (within intersects : Pt → Bool) (pts : List Pt) :
    List Pt :=
  if pts.length = 0 then pts
  else if 100000 < pts.length then filterChunks (safePred within intersects) pts
  else pts.filter (safePred within intersects)

theorem filterChunks_eq_filter (f : Pt → Bool) :
    ∀ (n : Nat) (pts : List Pt), pts.length ≤ n →
      filterChunks f pts = pts.filter f := by
  intro n
  induction n with
  | zero =>
      intro pts h
      have : pts = [] := List.length_eq_zero.mp (Nat.le_zero.mp h)
      subst this
      simp [filterChunks]
  | succ n ih =>
      intro pts h
      rw [filterChunks]
      by_cases hp : pts = []
      · simp [hp]
      · simp only [hp, if_false]
        have hlen : (pts.drop 50000).length ≤ n := by
          have h1 : pts.length ≠ 0 := fun hz => hp (List.length_eq_zero.mp hz)
          simp only [List.length_drop]
          omega
        rw [ih (pts.drop 50000) hlen, ← List.filter_append,
          List.take_append_drop]

theorem filter_safe_points_eq_filter (within intersects : Pt → Bool)
    (pts : List Pt) :
    filter_safe_points within intersects pts
      = pts.filter (safePred within intersects) := by
  unfold filter_safe_points
  split_ifs with h1 h2
  · have : pts = [] := List.length_eq_zero.mp h1
    simp [this]
  · exact filterChunks_eq_filter _ pts.length pts le_rfl
  · rfl

/-- C2: the chunked filtering path (fixed 50000-point chunks, in order,
results concatenated) yields exactly the same safe-point list, in the same
order, as one global evaluation of the safe mask, and therefore
`filter_safe_points` equals the global filter on every input regardless of
which branch the 100000-point threshold selects. -/
theorem c2_chunking_preserves_result (within intersects : Pt → Bool)
    (pts : List Pt) :
    filterChunks (safePred within intersects) pts
      = pts.filter (safePred within intersects)
    ∧ filter_safe_points within intersects pts
      = pts.filter (safePred within intersects) :=
  ⟨filterChunks_eq_filter _ pts.length pts le_rfl,
   filter_safe_points_eq_filter within intersects pts⟩

/-- C3: a candidate point survives `filter_safe_points` exactly when it was a
candidate and is neither within the forbidden region nor intersecting it; in
particular a point that intersects the forbidden region — e.g. one lying
exactly on its boundary — is never classified safe. -/
theorem c3_safe_iff_not_within_and_not_intersects
    (within intersects : Pt → Bool) (pts : List Pt) (p : Pt) :
    (p ∈ filter_safe_points within intersects pts
      ↔ p ∈ pts ∧ within p = false ∧ intersects p = false)
    ∧ (intersects p = true → p ∉ filter_safe_points within intersects pts) := by
  have hmem : p ∈ filter_safe_points within intersects pts
      ↔ p ∈ pts ∧ within p = false ∧ intersects p = false := by
    rw [filter_safe_points_eq_filter, List.mem_filter]
    simp [safePred]
  refine ⟨hmem, ?_⟩
  intro hint hcontra
  have := (hmem.mp hcontra).2.2
  rw [hint] at this
  exact Bool.noConfusion this

/-- C3 witness: the membership characterization applied to a concrete
three-point candidate list where one point is strictly inside the forbidden
region, one lies exactly on its boundary (intersects but is not within), and
one is outside. -/
theorem c3_safe_iff_witness :
    ((0, 0) ∉ SafeZones.filter_safe_points
        (fun q => decide (q = (1, 1))) (fun q => decide (q = (1, 1) ∨ q = (0, 0)))
        [(1, 1), (0, 0), (2, 2)])
    ∧ ((2, 2) ∈ SafeZones.filter_safe_points
        (fun q => decide (q = (1, 1))) (fun q => decide (q = (1, 1) ∨ q = (0, 0)))
        [(1, 1), (0, 0), (2, 2)]) := by
  constructor
  · exact (c3_safe_iff_not_within_and_not_intersects
      (fun q => decide (q = (1, 1))) (fun q => decide (q = (1, 1) ∨ q = (0, 0)))
      [(1, 1), (0, 0), (2, 2)] (0, 0)).2 (by decide)
  · exact (c3_safe_iff_not_within_and_not_intersects
      (fun q => decide (q = (1, 1))) (fun q => decide (q = (1, 1) ∨ q = (0, 0)))
      [(1, 1), (0, 0), (2, 2)] (2, 2)).1.mpr (by decide)

/-- Stride sampling `iloc[::step]` of the uniform thinning branch
(grid_generator.py line 135): keep the first element, then every step-th
element after it. -/
def strideSample (step : Nat) : List Pt → List Pt
  | [] => []
  | p :: rest => p :: strideSample step (rest.drop (step - 1))
termination_by pts => pts.length
decreasing_by
  simp only [List.length_cons, List.length_drop]
  omega

/-- Translation of `thin_points` (grid_generator.py lines 112-142).  The
fixed-seed random sampler of pandas is abstract (parameter `sample`); the
uniform branch keeps every `(length / max_points)`-th point; an unknown
method raises a ValueError, modelled as the error case. -/
def thin_points (sample : List Pt → Nat → List Pt) (pts : List Pt)
    (max_points : Option Nat) (method : String) :
    Except String (List Pt) :=
  match max_points with
  | none => Except.ok pts
  | some m =>
      if pts.length ≤ m then Except.ok pts
      else if method = "uniform" then
        Except.ok (strideSample (pts.length / m) pts)
      else if method = "random" then Except.ok (sample pts m)
      else Except.error ("Unknown thinning method: " ++ method)

theorem strideSample_sublist (step : Nat) :
    ∀ (n : Nat) (pts : List Pt), pts.length ≤ n →
      (strideSample step pts).Sublist pts := by
  intro n
  induction n with
  | zero =>
      intro pts h
      have : pts = [] := List.length_eq_zero.mp (Nat.le_zero.mp h)
      subst this
      simp [strideSample]
  | succ n ih =>
      intro pts h
      match pts with
      | [] => simp [strideSample]
      | p :: rest =>
          rw [strideSample]
          refine List.Sublist.cons₂ p ?_
          have h1 : (rest.drop (step - 1)).length ≤ n := by
            simp only [List.length_cons] at h
            simp only [List.length_drop]
            omega
          exact (ih (rest.drop (step - 1)) h1).trans (List.drop_sublist _ _)

theorem strideSample_one_aux :
    ∀ (n : Nat) (pts : List Pt), pts.length ≤ n → strideSample 1 pts = pts := by
  intro n
  induction n with
  | zero =>
      intro pts h
      have : pts = [] := List.length_eq_zero.mp (Nat.le_zero.mp h)
      subst this
      simp [strideSample]
  | succ n ih =>
      intro pts h
      match pts with
      | [] => simp [strideSample]
      | p :: rest =>
          rw [strideSample]
          simp only [Nat.sub_self, List.drop_zero]
          simp only [List.length_cons] at h
          rw [ih rest (by omega)]

theorem strideSample_one (pts : List Pt) : strideSample 1 pts = pts :=
  strideSample_one_aux pts.length pts le_rfl

theorem strideSample_length (step : Nat) (hs : 0 < step) :
    ∀ (n : Nat) (pts : List Pt), pts.length ≤ n →
      (strideSample step pts).length = (pts.length + (step - 1)) / step := by
  intro n
  induction n with
  | zero =>
      intro pts h
      have : pts = [] := List.length_eq_zero.mp (Nat.le_zero.mp h)
      subst this
      have hz : (step - 1) / step = 0 := Nat.div_eq_of_lt (by omega)
      simpa [strideSample] using hz.symm
  | succ n ih =>
      intro pts h
      match pts with
      | [] =>
          have hz : (step - 1) / step = 0 := Nat.div_eq_of_lt (by omega)
          simpa [strideSample] using hz.symm
      | p :: rest =>
          rw [strideSample]
          simp only [List.length_cons]
          have h1 : (rest.drop (step - 1)).length ≤ n := by
            simp only [List.length_cons] at h
            simp only [List.length_drop]
            omega
          rw [ih (rest.drop (step - 1)) h1]
          simp only [List.length_drop]
          rcases Nat.exists_eq_add_of_lt hs with ⟨d, hd⟩
          subst hd
          simp only [Nat.zero_add, Nat.add_sub_cancel]
          by_cases hc : d ≤ rest.length
          · have e1 : rest.length - d + d = rest.length := Nat.sub_add_cancel hc
            rw [e1]
            have e2 : rest.length + 1 + d = rest.length + (d + 1) := by omega
            rw [e2, Nat.add_div_right _ (Nat.succ_pos d), Nat.add_comm]
          · have e1 : rest.length - d = 0 := Nat.sub_eq_zero_of_le (le_of_not_le hc)
            rw [e1, Nat.zero_add]
            have e2 : d / (d + 1) = 0 := Nat.div_eq_of_lt (Nat.lt_succ_self d)
            have e3 : rest.length + 1 + d = rest.length + 1 + d := rfl
            have e4 : (rest.length + 1 + d) / (d + 1) = 1 := by
              apply Nat.div_eq_of_lt_le
              · omega
              · omega
            rw [e2, e4]

theorem strideSample_getElem (step : Nat) (hs : 0 < step) :
    ∀ (n : Nat) (pts : List Pt), pts.length ≤ n → ∀ (i : Nat),
      (strideSample step pts)[i]? = pts[i * step]? := by
  intro n
  induction n with
  | zero =>
      intro pts h i
      have : pts = [] := List.length_eq_zero.mp (Nat.le_zero.mp h)
      subst this
      simp [strideSample]
  | succ n ih =>
      intro pts h i
      match pts with
      | [] => simp [strideSample]
      | p :: rest =>
          rw [strideSample]
          match i with
          | 0 => simp
          | i + 1 =>
              have h1 : (rest.drop (step - 1)).length ≤ n := by
                simp only [List.length_cons] at h
                simp only [List.length_drop]
                omega
              rw [List.getElem?_cons_succ, ih (rest.drop (step - 1)) h1 i,
                List.getElem?_drop]
              have e1 : (i + 1) * step = step - 1 + i * step + 1 := by
                rcases Nat.exists_eq_add_of_lt hs with ⟨d, hd⟩
                subst hd
                ring_nf
                omega
              rw [e1, List.getElem?_cons_succ]

/-- C9: on 10000 safe points with max_points = 1000 and the uniform method,
thinning computes stride 10000 / 1000 = 10 and returns exactly 1000 points,
evenly spaced — element i of the output is element 10·i of the input — and
the output is a subsequence of the input in its original order. -/
theorem c9_uniform_thinning_exactness (sample : List Pt → Nat → List Pt)
    (pts : List Pt) (h : pts.length = 10000) :
    thin_points sample pts (some 1000) "uniform"
      = Except.ok (strideSample 10 pts)
    ∧ (strideSample 10 pts).length = 1000
    ∧ (strideSample 10 pts).Sublist pts
    ∧ ∀ i, (strideSample 10 pts)[i]? = pts[i * 10]? := by
  refine ⟨?_, ?_, strideSample_sublist 10 pts.length pts le_rfl,
    fun i => strideSample_getElem 10 (by norm_num) pts.length pts le_rfl i⟩
  · simp [thin_points, h]
  · rw [strideSample_length 10 (by norm_num) pts.length pts le_rfl, h]

/-- Concrete 10000-point candidate list used by the C9 witness. -/
def wpts10000 : List Pt :=
  (List.range 10000).map fun (k : Nat) => ((k : Int), (0 : Int))

/-- C9 witness: the thinning-exactness theorem applied to the concrete
10000-point list. -/
theorem c9_uniform_thinning_exactness_witness :
    thin_points (fun l _ => l) wpts10000 (some 1000) "uniform"
      = Except.ok (strideSample 10 wpts10000)
    ∧ (strideSample 10 wpts10000).length = 1000
    ∧ (strideSample 10 wpts10000).Sublist wpts10000
    ∧ ∀ i, (strideSample 10 wpts10000)[i]? = wpts10000[i * 10]? :=
  c9_uniform_thinning_exactness (fun l _ => l) wpts10000
    (by simp only [wpts10000, List.length_map, List.length_range])

/-- C10: uniform thinning does not guarantee at most max_points outputs —
whenever max_points < N < 2·max_points the stride N / max_points is 1 and
every point is returned; in general, for N > max_points > 0 the uniform
method returns ⌈N / ⌊N / max_points⌋⌉ points. -/
theorem c10_uniform_thinning_overshoot (sample : List Pt → Nat → List Pt)
    (pts : List Pt) (m : Nat) (hm : 0 < m) (h1 : m < pts.length) :
    (pts.length < 2 * m →
      pts.length / m = 1
      ∧ thin_points sample pts (some m) "uniform" = Except.ok pts)
    ∧ thin_points sample pts (some m) "uniform"
        = Except.ok (strideSample (pts.length / m) pts)
    ∧ (strideSample (pts.length / m) pts).length
        = (pts.length + (pts.length / m - 1)) / (pts.length / m) := by
  have hnotle : ¬ pts.length ≤ m := not_le.mpr h1
  have hstep : 0 < pts.length / m :=
    (Nat.one_le_div_iff hm).mpr (le_of_lt h1)
  refine ⟨?_, ?_, ?_⟩
  · intro h2
    have hdiv : pts.length / m = 1 := by
      apply Nat.div_eq_of_lt_le
      · omega
      · omega
    refine ⟨hdiv, ?_⟩
    simp [thin_points, hnotle, hdiv, strideSample_one]
  · simp [thin_points, hnotle]
  · exact strideSample_length (pts.length / m) hstep pts.length pts le_rfl

/-- Concrete 3-point list used by the C10 witness. -/
def wpts3 : List Pt := [(0, 0), (1, 0), (2, 0)]

/-- C10 witness: the overshoot theorem applied to the concrete 3-point list
with max_points = 2: the stride is 1 and all 3 points come back. -/
theorem c10_uniform_thinning_overshoot_witness :
    (wpts3.length < 2 * 2 →
      wpts3.length / 2 = 1
      ∧ thin_points (fun l _ => l) wpts3 (some 2) "uniform" = Except.ok wpts3)
    ∧ thin_points (fun l _ => l) wpts3 (some 2) "uniform"
      = Except.ok (strideSample (wpts3.length / 2) wpts3)
    ∧ (strideSample (wpts3.length / 2) wpts3).length
      = (wpts3.length + (wpts3.length / 2 - 1)) / (wpts3.length / 2) :=
  c10_uniform_thinning_overshoot (fun l _ => l) wpts3 2
    (by norm_num) (by norm_num [wpts3])

/-- Translation of the guarded difference of `create_zones_from_free_space`
(zones_generator.py lines 257-262): try the planar difference; on failure
retry once with both operands repaired by a zero-width buffer; a failure of
the retry is not caught.  The fallible difference of the geometry engine and its
zero-width-buffer repair are abstract parameters. -/
def compute_free_space {E : Type} (diff : Geom → Geom → Except E Geom)
    (buffer0 : Geom → Geom) (boundary forbidden : Geom) : Except E Geom :=
  match diff boundary forbidden with
  | Except.ok fs => Except.ok fs
  | Except.error _ => diff (buffer0 boundary) (buffer0 forbidden)

/-- Translation of `create_zones_from_free_space` up to the area filter
(zones_generator.py lines 218-296): difference with one repair retry, zone
extraction by `freeSpaceZonesList`, then the minimum-area filter.  An
uncaught difference failure propagates as the error result with no partial
zone list. -/
def create_zones_from_free_space {E : Type}
    (diff : Geom → Geom → Except E Geom) (buffer0 : Geom → Geom)
    (area : AtomGeom → ℚ) (min_zone_area : Option ℚ)
    (boundary forbidden : Geom) : Except E (List AtomGeom) :=
  match compute_free_space diff buffer0 boundary forbidden with
  | Except.error e => Except.error e
  | Except.ok fs =>
      match min_zone_area with
      | some m => Except.ok ((freeSpaceZonesList fs).filter fun z => m ≤ area z)
      | none => Except.ok (freeSpaceZonesList fs)

/-- C5: if the free-space difference succeeds its result is used directly;
if it fails, it is retried exactly once with both operands repaired by a
zero-width buffer; if that single retry also fails, the failure propagates
as the fatal result of the whole zone computation — no partial zones and no
further fallback. -/
theorem c5_difference_retry_policy {E : Type}
    (diff : Geom → Geom → Except E Geom) (buffer0 : Geom → Geom)
    (area : AtomGeom → ℚ) (mza : Option ℚ) (b f : Geom) :
    (∀ r, diff b f = Except.ok r →
      compute_free_space diff buffer0 b f = Except.ok r)
    ∧ (∀ e, diff b f = Except.error e →
      compute_free_space diff buffer0 b f = diff (buffer0 b) (buffer0 f))
    ∧ (∀ e e2, diff b f = Except.error e →
      diff (buffer0 b) (buffer0 f) = Except.error e2 →
      create_zones_from_free_space diff buffer0 area mza b f
        = Except.error e2) := by
  refine ⟨?_, ?_, ?_⟩
  · intro r hr; simp [compute_free_space, hr]
  · intro e he; simp [compute_free_space, he]
  · intro e e2 he he2
    simp [create_zones_from_free_space, compute_free_space, he, he2]

/-- C5 witness: the retry-policy theorem applied to a difference operation
that always fails with error 7 — the pipeline result is that error. -/
theorem c5_difference_retry_policy_witness :
    create_zones_from_free_space (fun _ _ => (Except.error 7 : Except Nat Geom))
      id (fun _ => 0) none (Geom.atom AtomGeom.point) (Geom.atom AtomGeom.point)
      = Except.error 7 :=
  (c5_difference_retry_policy (fun _ _ => (Except.error 7 : Except Nat Geom))
    id (fun _ => 0) none (Geom.atom AtomGeom.point)
    (Geom.atom AtomGeom.point)).2.2 7 7 rfl rfl

/-- Stages of the point pipeline `generate_safe_points`
(grid_generator.py lines 145-193), recorded in execution order. -/
inductive PipeStep where
  | gridGeneration
  | safeFiltering
  | thinning
deriving DecidableEq, Repr

/-- Translation of `generate_safe_points` (grid_generator.py lines 145-193)
instrumented with the ordered list of pipeline stages it executes.  Grid
generation is an abstract producer of candidate points; the thinning method
is the configuration value handed to `thin_points` (the source call site at
line 187 passes the literal string for the uniform method).  The source
calls `thin_points` only after grid generation and safe-point filtering have
completed, and only when a maximum output count is set. -/
def generate_safe_points_steps (genGrid : Unit → List Pt)
    (within intersects : Pt → Bool) (sample : List Pt → Nat → List Pt)
    (max_output : Option Nat) (method : String) :
    Except String (List Pt) × List PipeStep :=
  let grid := genGrid ()
  if grid.length = 0 then (Except.ok grid, [PipeStep.gridGeneration])
  else
    let safe := filter_safe_points within intersects grid
    if safe.length = 0 then
      (Except.ok safe, [PipeStep.gridGeneration, PipeStep.safeFiltering])
    else
      match max_output with
      | none =>
          (Except.ok safe, [PipeStep.gridGeneration, PipeStep.safeFiltering])
      | some m =>
          (thin_points sample safe (some m) method,
           [PipeStep.gridGeneration, PipeStep.safeFiltering, PipeStep.thinning])

/-- C6 counterexample: running the point pipeline with the unrecognized
thinning method "foo" on a two-point grid with max_output = 1 raises the
configuration error only AFTER grid generation and safe-point filtering have
both executed — the step trace records them before the thinning stage that
fails — contradicting the claim that no geometric work happens first. -/
theorem c6_counterexample :
    generate_safe_points_steps (fun _ => [((0 : Int), (0 : Int)), (1, 0)])
        (fun _ => false) (fun _ => false) (fun l _ => l) (some 1) "foo"
      = (Except.error ("Unknown thinning method: foo"),
         [PipeStep.gridGeneration, PipeStep.safeFiltering, PipeStep.thinning]) := by
  rfl

/-- C6 (amended): an unknown thinning method is reported as a distinct
configuration error (the "Unknown thinning method" ValueError), but the
check is reached only inside the thinning stage, which runs after grid
generation and safe-point filtering and only when a maximum output count is
set and exceeded; when the safe-point count does not exceed the limit the
unknown method is silently accepted, and a non-positive grid step is not
validated anywhere in this pipeline. -/
theorem c6_config_error_after_geometry (genGrid : Unit → List Pt)
    (within intersects : Pt → Bool) (sample : List Pt → Nat → List Pt)
    (m : Nat) (method : String)
    (hmeth1 : method ≠ "uniform") (hmeth2 : method ≠ "random")
    (hgrid : (genGrid ()).length ≠ 0)
    (hsafe : (filter_safe_points within intersects (genGrid ())).length ≠ 0)
    (hover : m < (filter_safe_points within intersects (genGrid ())).length) :
    generate_safe_points_steps genGrid within intersects sample (some m) method
      = (Except.error ("Unknown thinning method: " ++ method),
         [PipeStep.gridGeneration, PipeStep.safeFiltering, PipeStep.thinning])
    ∧ (∀ m2 : Nat,
        (filter_safe_points within intersects (genGrid ())).length ≤ m2 →
        (generate_safe_points_steps genGrid within intersects sample
            (some m2) method).1
          = Except.ok (filter_safe_points within intersects (genGrid ()))) := by
  constructor
  · simp [generate_safe_points_steps, thin_points, hgrid, hsafe,
      not_le.mpr hover, hmeth1, hmeth2]
  · intro m2 hle
    simp only [generate_safe_points_steps, thin_points]
    simp [hgrid, hsafe, hle]

/-- C6 witness: the amended theorem applied to a concrete two-point grid,
the unknown method "foo" and limit 1. -/
theorem c6_config_error_after_geometry_witness :
    generate_safe_points_steps (fun _ => [((0 : Int), (1 : Int)), (2, 3)])
        (fun _ => false) (fun _ => false) (fun l _ => l) (some 1) "foo"
      = (Except.error ("Unknown thinning method: " ++ "foo"),
         [PipeStep.gridGeneration, PipeStep.safeFiltering, PipeStep.thinning])
    ∧ (∀ m2 : Nat,
        (filter_safe_points (fun _ => false) (fun _ => false)
            [((0 : Int), (1 : Int)), (2, 3)]).length ≤ m2 →
        (generate_safe_points_steps (fun _ => [((0 : Int), (1 : Int)), (2, 3)])
            (fun _ => false) (fun _ => false) (fun l _ => l) (some m2) "foo").1
          = Except.ok (filter_safe_points (fun _ => false) (fun _ => false)
              [((0 : Int), (1 : Int)), (2, 3)])) :=
  c6_config_error_after_geometry (fun _ => [((0 : Int), (1 : Int)), (2, 3)])
    (fun _ => false) (fun _ => false) (fun l _ => l) 1 "foo"
    (by decide) (by decide) (by decide) (by decide) (by decide)

/-- Zone record after the area computation: the zone geometry plus its area
in square meters (floats modelled as rationals). -/
structure Zone where
  geom : AtomGeom
  area_m2 : ℚ
deriving DecidableEq, Repr

/-- Metadata columns added by `add_zone_metadata`
(zones_generator.py lines 150-159). -/
structure ZoneMeta where
  perimeter_m : ℚ
  compactness : ℚ
  centroid_x : ℚ
  centroid_y : ℚ
deriving DecidableEq, Repr

/-- A zone after the classification and metadata stages: optional size class
and optional metadata, depending on the configuration flags. -/
structure ZoneOut where
  zone : Zone
  size_class : Option SizeClass
  meta : Option ZoneMeta
deriving DecidableEq, Repr

/-- Translation of `add_zone_metadata` for one zone (zones_generator.py
lines 131-163): perimeter from the geometry length, compactness
4·pi·area / perimeter², centroid coordinates.  The float constant np.pi and
the length and centroid measurements of the engine are abstract parameters. -/
def add_zone_metadata (pi : ℚ) (len : AtomGeom → ℚ)
    (centroid : AtomGeom → ℚ × ℚ) (z : Zone) : ZoneMeta :=
  { perimeter_m := len z.geom
    compactness := 4 * pi * z.area_m2 / (len z.geom * len z.geom)
    centroid_x := (centroid z.geom).1
    centroid_y := (centroid z.geom).2 }

/-- Minimum-area filter of the point-zone path (zones_generator.py lines
67-74): applied only when a threshold is set and the zone list is
non-empty. -/
def zone_filter_points (min_zone_area : Option ℚ) (zones : List Zone) :
    List Zone :=
  match min_zone_area with
  | some m =>
      if zones.length = 0 then zones
      else zones.filter fun z => m ≤ z.area_m2
  | none => zones

/-- Minimum-area filter of the free-space path (zones_generator.py lines
292-296): applied whenever a threshold is set. -/
def zone_filter_freespace (min_zone_area : Option ℚ) (zones : List Zone) :
    List Zone :=
  match min_zone_area with
  | some m => zones.filter fun z => m ≤ z.area_m2
  | none => zones

/-- Classification and metadata stages of the point-zone pipeline
`generate_safe_zones` (zones_generator.py lines 201-215): size classes are
assigned when classification is enabled (the area column always exists for
the zones built here), and metadata is added only when both the metadata
flag is set AND a boundary frame was supplied. -/
def points_path_postprocess {B : Type} (pi : ℚ) (len : AtomGeom → ℚ)
    (centroid : AtomGeom → ℚ × ℚ) (add_meta classify : Bool)
    (boundary : Option B) (zones : List Zone) : List ZoneOut :=
  zones.map fun z =>
    { zone := z
      size_class := if classify then some (classify_size z.area_m2) else none
      meta :=
        if add_meta && boundary.isSome then
          some (add_zone_metadata pi len centroid z)
        else none }

/-- Classification and metadata stages of the free-space pipeline
`create_zones_from_free_space` (zones_generator.py lines 314-318): size
classes when classification is enabled, metadata whenever the metadata flag
is set (the boundary argument is passed along but not consulted). -/
def freespace_postprocess {B : Type} (pi : ℚ) (len : AtomGeom → ℚ)
    (centroid : AtomGeom → ℚ × ℚ) (add_meta classify : Bool) (_boundary : B)
    (zones : List Zone) : List ZoneOut :=
  zones.map fun z =>
    { zone := z
      size_class := if classify then some (classify_size z.area_m2) else none
      meta :=
        if add_meta then some (add_zone_metadata pi len centroid z) else none }

/-- C8 counterexample: with the metadata flag set but no boundary supplied
(the default of `generate_safe_zones`), the point path skips metadata while
the free-space path computes it, so the two post-processing stages do not
run under the same conditions. -/
theorem c8_counterexample :
    points_path_postprocess (B := Unit) 3 (fun _ => 1) (fun _ => (0, 0))
        true true none [⟨AtomGeom.polygon 0, 5⟩]
      ≠ freespace_postprocess 3 (fun _ => 1) (fun _ => (0, 0))
        true true () [⟨AtomGeom.polygon 0, 5⟩] := by
  decide

/-- C8 (amended): both pipelines share the same minimum-area filter, size
classification and metadata computation — whenever the point path is given a
boundary its classification/metadata stage is literally the free-space
stage, and the two area filters agree on every input — but the metadata
CONDITION differs: without a boundary the point path behaves as if the
metadata flag were off, while the free-space path honors the flag
unconditionally. -/
theorem c8_postprocess_agreement {B : Type} (pi : ℚ) (len : AtomGeom → ℚ)
    (centroid : AtomGeom → ℚ × ℚ) (add_meta classify : Bool) (b : B)
    (mza : Option ℚ) (zones : List Zone) :
    points_path_postprocess pi len centroid add_meta classify (some b) zones
      = freespace_postprocess pi len centroid add_meta classify b zones
    ∧ points_path_postprocess (B := B) pi len centroid add_meta classify
        none zones
      = freespace_postprocess pi len centroid false classify b zones
    ∧ zone_filter_points mza zones = zone_filter_freespace mza zones := by
  refine ⟨?_, ?_, ?_⟩
  · simp [points_path_postprocess, freespace_postprocess]
  · simp [points_path_postprocess, freespace_postprocess]
  · cases mza with
    | none => rfl
    | some m =>
        simp only [zone_filter_points, zone_filter_freespace]
        by_cases h : zones.length = 0
        · have : zones = [] := List.length_eq_zero.mp h
          simp [this, h]
        · simp [h]

end SafeZones
